import Mathlib

/-!
Verification development for the ScalesDriver repository (CAS Type 6 scale
driver).  The Python modules `scales_driver/drivers.py`,
`scales_driver/exceptions.py` and `main.py` are embedded shallowly below:
pure helpers become Lean functions, the mutation of the session object in
`update()` becomes explicit state passing, the serial port becomes an
explicit description of the bytes each port operation yields, and raised
exceptions become explicit error values.  Machine bytes are natural numbers
(every frame byte lies below 256); Python `decimal.Decimal` values are
embedded as exact integer fractions.
-/

namespace ScalesDriver

/-! ### Decimal values (`decimal.Decimal`) -/

/-- A Python `decimal.Decimal` value, embedded as the exact fraction
`num / den`.  Every value the driver constructs keeps `den` positive (a
power of ten or of two).  The arithmetic the driver performs (`*`, `/`,
`quantize`) is modelled exactly over these fractions: the default decimal
context precision of 28 significant digits never truncates any of the
computations the claims are about, so context rounding is not modelled,
and the special values NaN and Infinity do not arise in the modelled
fragment. -/
structure Dec where
  num : ℤ
  den : ℤ
deriving DecidableEq, Repr

/-- Equality of the rational values denoted by two embedded decimals
(cross multiplication, so it is kernel-decidable). -/
def Dec.valEq (a b : Dec) : Prop :=
  a.num * b.den = b.num * a.den

instance (a b : Dec) : Decidable (a.valEq b) :=
  inferInstanceAs (Decidable (a.num * b.den = b.num * a.den))

/-- Exact product of two decimal values. -/
def Dec.mul (a b : Dec) : Dec :=
  ⟨a.num * b.num, a.den * b.den⟩

/-- Exact quotient of two decimal values, keeping the denominator
positive.  The driver only ever divides by the three conversion factors,
which are nonzero. -/
def Dec.div (a b : Dec) : Dec :=
  if 0 ≤ b.num then ⟨a.num * b.den, a.den * b.num⟩
  else ⟨-(a.num * b.den), a.den * -b.num⟩

/-! ### `Generic` driver class: constants and state -/

/-- `Generic.GR`. -/
def GR : String := "gr"

/-- `Generic.KG`. -/
def KG : String := "kg"

/-- `Generic.LB`. -/
def LB : String := "lb"

/-- `Generic.STATUS_OVERLOAD`. -/
def STATUS_OVERLOAD : ℕ := 0

/-- `Generic.STATUS_STABLE`. -/
def STATUS_STABLE : ℕ := 1

/-- `Generic.STATUS_UNSTABLE`. -/
def STATUS_UNSTABLE : ℕ := 2

/-- The pounds entry of `Generic.FACTOR`, written `Decimal(453.595)` in the
source.  The float literal 453.595 denotes the nearest IEEE-754 double,
whose exact value is 1994931907204219 / 2 ^ 42, and `Decimal` of a float
converts that binary value exactly. -/
def lbFactor : Dec := ⟨1994931907204219, 2 ^ 42⟩

/-- `Generic.FACTOR.get(unit)`: the dict lookup used for the unit the
caller requests; `none` models a key that is absent. -/
def FACTOR_get (u : String) : Option Dec :=
  if u = GR then some ⟨1, 1⟩
  else if u = KG then some ⟨1000, 1⟩
  else if u = LB then some lbFactor
  else none

/-- The unit held in the session state.  The Python attribute `self.unit`
is a string, but it only ever holds one of the three dict keys: it is set
to `GR` in `__init__` and afterwards only from a successful `parse_unit`,
so it is embedded as an enumerated type. -/
inductive ScaleUnit
  | gr
  | kg
  | lb
deriving DecidableEq, Repr

/-- The dict key (`Generic.GR` / `KG` / `LB`) a stored unit stands for. -/
def unitKey : ScaleUnit → String
  | .gr => GR
  | .kg => KG
  | .lb => LB

/-- `Generic.FACTOR[self.unit]`: the unchecked dict indexing on the stored
unit, total because the stored unit is always one of the three keys. -/
def FACTOR_of : ScaleUnit → Dec
  | .gr => ⟨1, 1⟩
  | .kg => ⟨1000, 1⟩
  | .lb => lbFactor

/-- The mutable reading of the session: `self.weight`, `self.status`,
`self.unit`. -/
structure ScalesState where
  weight : Dec
  status : ℕ
  unit : ScaleUnit
deriving DecidableEq, Repr

/-- The state `Generic.__init__` installs: weight `Decimal(0)`, status
`STATUS_OVERLOAD`, unit `GR`. -/
def initState : ScalesState := ⟨⟨0, 1⟩, STATUS_OVERLOAD, ScaleUnit.gr⟩

/-! ### Rounding (`quantize` with `ROUND_05UP`) -/

/-- `value.quantize(exp, ROUND_05UP)` where `exp` is the decimal written
as a zero with `decimal_places` digits after the point: round `x` to `dp`
places after the point with the decimal `ROUND_05UP` rule.
Per the decimal specification, `ROUND_05UP` rounds toward zero, except
that when rounding is inexact and the last digit of the toward-zero result
is 0 or 5 it rounds away from zero instead.  `Int.tdiv` / `Int.tmod`
truncate toward zero, matching the rule for negative values. -/
def quantize05up (x : Dec) (dp : ℕ) : Dec :=
  let n : ℤ := x.num * 10 ^ dp
  let t : ℤ := n.tdiv x.den
  let r : ℤ :=
    if n.tmod x.den = 0 then t
    else if t.natAbs % 10 = 0 ∨ t.natAbs % 10 = 5 then
      t + (if 0 ≤ n then 1 else -1)
    else t
  ⟨r, 10 ^ dp⟩

/-! ### Errors (`exceptions.py` and the exceptions escaping `update`) -/

/-- The distinct `ScalesException` protocol violations the driver raises,
tagged with the data the message interpolates. -/
inductive ScalesErr
  | badAck (ack : List ℕ)
  | badLen (n : ℕ)
  | badWrap (wrap : List ℕ)
  | badBcc (computed expected : ℕ)
  | badSta (sta : ℕ)
  | badUnit (un : List ℕ)
deriving DecidableEq, Repr

/-- Every exception that can escape the driver: `ScalesException`
(protocol violation), `SerialError` (link error, wrapping a
`SerialException` from the port), and the two exceptions `parse_value`
can let escape that belong to neither class: `decimal.InvalidOperation`
from `Decimal(value)` and `UnicodeDecodeError` from `bytes.decode()`. -/
inductive DriverErr
  | scales (e : ScalesErr)
  | serial
  | invalidOperation
  | unicodeDecode
deriving DecidableEq, Repr

/-- Whether an escaped exception is an instance of `ScalesException`,
i.e. matches the polling loop handler `except ScalesException`. -/
def isProtocolViolation : DriverErr → Bool
  | .scales _ => true
  | _ => false

/-- The error `Generic.get_weight` can raise: `ValueError` for an
unknown requested unit. -/
inductive GetWeightErr
  | unknownUnit
deriving DecidableEq, Repr

/-- Result of a fallible call: a value or a raised exception. -/
inductive PRes (ε α : Type)
  | ok (a : α)
  | err (e : ε)
deriving DecidableEq, Repr

/-! ### `Generic.get_weight` -/

/-- `Generic.get_weight(unit, decimal_places)`: converts the committed
weight with the factor table and rounds with `ROUND_05UP`.  The method
performs no assignment, so it returns the session state unchanged next to
its result. -/
def get_weight (s : ScalesState) (unit : String) (decimal_places : ℕ) :
    PRes GetWeightErr Dec × ScalesState :=
  match FACTOR_get unit with
  | none => (PRes.err GetWeightErr.unknownUnit, s)
  | some factor =>
      (PRes.ok (quantize05up ((s.weight.mul (FACTOR_of s.unit)).div factor)
        decimal_places), s)

/-! ### `CASType6` frame codec constants -/

/-- `CASType6.ENQ` (a single byte). -/
def ENQ : ℕ := 0x05

/-- `CASType6.ACK` (a single byte). -/
def ACK : ℕ := 0x06

/-- `CASType6.DC1` (a single byte). -/
def DC1 : ℕ := 0x11

/-- `CASType6.WRAP`: the fixed envelope constant. -/
def WRAP : List ℕ := [0x01, 0x02, 0x03, 0x04]

/-- `CASType6.DATA_LEN`. -/
def DATA_LEN : ℕ := 15

/-- Python slicing `l[a:b]` on a byte sequence. -/
def slice (l : List ℕ) (a b : ℕ) : List ℕ :=
  (l.drop a).take (b - a)

/-- `CASType6.bcc`: XOR fold of a byte sequence starting from zero. -/
def bcc (data : List ℕ) : ℕ :=
  data.foldl (fun acc item => acc ^^^ item) 0

/-- `CASType6.STATUS.get(sta)`: status byte lookup. -/
def STATUS_get (sta : ℕ) : Option ℕ :=
  if sta = 0x53 then some STATUS_STABLE
  else if sta = 0x55 then some STATUS_UNSTABLE
  else if sta = 0x46 then some STATUS_OVERLOAD
  else none

/-- `CASType6.UNIT.get(un)`: two-byte unit code lookup. -/
def UNIT_get (un : List ℕ) : Option ScaleUnit :=
  if un = [0x20, 0x67] then some ScaleUnit.gr
  else if un = [0x6B, 0x67] then some ScaleUnit.kg
  else if un = [0x6C, 0x62] then some ScaleUnit.lb
  else none

/-! ### `CASType6.check_response` -/

/-- `CASType6.check_response(response)`: structural validation.  Returns
the raised `ScalesException` (as a `DriverErr`), or `none` when the frame
is accepted.  Byte 12 is read with a default that is never used on the
15-byte frames that reach the read. -/
def check_response (response : List ℕ) : Option DriverErr :=
  if response.length ≠ DATA_LEN then
    some (DriverErr.scales (ScalesErr.badLen response.length))
  else if slice response 0 2 ++ slice response 13 15 ≠ WRAP then
    some (DriverErr.scales
      (ScalesErr.badWrap (slice response 0 2 ++ slice response 13 15)))
  else if bcc (slice response 2 12) ≠ response.getD 12 0 then
    some (DriverErr.scales
      (ScalesErr.badBcc (bcc (slice response 2 12)) (response.getD 12 0)))
  else none

/-! ### Parsing the weight digits (`Decimal(value)` on ASCII text) -/

/-- ASCII whitespace bytes that `str.strip()` removes. -/
def isWsB (b : ℕ) : Bool :=
  b = 9 || b = 10 || b = 11 || b = 12 || b = 13 || b = 32

/-- ASCII digit bytes. -/
def isDigitB (b : ℕ) : Bool :=
  48 ≤ b && b ≤ 57

/-- Leading and trailing whitespace removal. -/
def stripWs (l : List ℕ) : List ℕ :=
  ((l.dropWhile isWsB).reverse.dropWhile isWsB).reverse

/-- Value of a digit string. -/
def digitsVal (l : List ℕ) : ℕ :=
  l.foldl (fun a b => a * 10 + (b - 48)) 0

/-- Exponent suffix of a decimal numeric string: an optional sign and at
least one digit. -/
def parseExpPart (l : List ℕ) : Option ℤ :=
  let p : ℤ × List ℕ :=
    match l with
    | 43 :: r => (1, r)
    | 45 :: r => (-1, r)
    | _ => (1, l)
  if p.2 ≠ [] ∧ p.2.all isDigitB then some (p.1 * digitsVal p.2) else none

/-- Scale a signed coefficient `n / d` by ten to the `ex`. -/
def applyExp (n d : ℤ) (ex : ℤ) : Dec :=
  if 0 ≤ ex then ⟨n * 10 ^ ex.toNat, d⟩ else ⟨n, d * 10 ^ (-ex).toNat⟩

/-- Construction of a `Decimal` from the decoded text of the weight
field: per the decimal specification, leading and trailing whitespace and
all underscores are removed, then the string must be an optional sign, a
coefficient with at least one digit and at most one point, and an
optional exponent.  `none` is the `decimal.InvalidOperation` case.  The
special values NaN and Infinity, which a conforming string can also
spell, are not modelled: no claim concerns them and no theorem below
quantifies over inputs that could spell them. -/
def pyDecimalOfBytes (l0 : List ℕ) : Option Dec :=
  let l1 := (stripWs l0).filter (fun b => b ≠ 95)
  let p : ℤ × List ℕ :=
    match l1 with
    | 43 :: r => (1, r)
    | 45 :: r => (-1, r)
    | _ => (1, l1)
  let sg := p.1
  let l2 := p.2
  let ip := l2.takeWhile isDigitB
  let rest := l2.drop ip.length
  match rest with
  | [] => if ip = [] then none else some ⟨sg * digitsVal ip, 1⟩
  | 46 :: r2 =>
    let fp := r2.takeWhile isDigitB
    let rest2 := r2.drop fp.length
    if ip = [] ∧ fp = [] then none
    else
      let n := sg * digitsVal (ip ++ fp)
      let d : ℤ := 10 ^ fp.length
      match rest2 with
      | [] => some ⟨n, d⟩
      | c :: r3 =>
        if c = 101 ∨ c = 69 then (parseExpPart r3).map (applyExp n d)
        else none
  | c :: r3 =>
    if (c = 101 ∨ c = 69) ∧ ip ≠ [] then
      (parseExpPart r3).map (applyExp (sg * digitsVal ip) 1)
    else none

/-! ### `CASType6` field parsers -/

/-- `CASType6.parse_value(response)`: decode bytes `[3, 10)` as text and
build a `Decimal` from them.  A byte at or above 0x80 makes the field
non-ASCII; decoding or parsing it then raises outside the modelled ASCII
fragment, embedded as the `unicodeDecode` error (no claim concerns such
frames and no theorem below reaches this case). -/
def parse_value (response : List ℕ) : PRes DriverErr Dec :=
  let ws := slice response 3 10
  if ws.all (fun b => b < 128) then
    match pyDecimalOfBytes ws with
    | some d => PRes.ok d
    | none => PRes.err DriverErr.invalidOperation
  else PRes.err DriverErr.unicodeDecode

/-- `CASType6.parse_unit(response)`: bytes `[10, 12)` through the `UNIT`
table; an absent key raises a `ScalesException`. -/
def parse_unit (response : List ℕ) : PRes DriverErr ScaleUnit :=
  let un := slice response 10 12
  match UNIT_get un with
  | some u => PRes.ok u
  | none => PRes.err (DriverErr.scales (ScalesErr.badUnit un))

/-- `CASType6.parse_status(response)`: byte 2 through the `STATUS` table;
an absent key raises a `ScalesException`. -/
def parse_status (response : List ℕ) : PRes DriverErr ℕ :=
  let sta := response.getD 2 0
  match STATUS_get sta with
  | some st => PRes.ok st
  | none => PRes.err (DriverErr.scales (ScalesErr.badSta sta))

/-! ### The serial port, `read_data` and `update` -/

/-- One exchange worth of behaviour of the serial channel, as `read_data`
and `scales_reinit` observe it.  A `false` write or a `none` read stands
for the port operation raising `SerialException`; `some bs` is the byte
string the read returns (`port.read()` returns at most one byte, and
fewer than requested on a timeout). -/
structure PortBehavior where
  writeEnqOk : Bool
  ackRead : Option (List ℕ)
  writeDc1Ok : Bool
  dataRead : Option (List ℕ)
  reinitOk : Bool
deriving DecidableEq, Repr

/-- The port behaviour of a healthy exchange that answers `ACK` and then
the 15 data bytes `resp`. -/
def pbOf (resp : List ℕ) : PortBehavior :=
  ⟨true, some [ACK], true, some resp, true⟩

/-- `CASType6.read_data()`: write `ENQ`, read one byte and demand `ACK`,
write `DC1`, read up to `DATA_LEN` bytes.  An ACK mismatch raises
`ScalesException`; any `SerialException` from the port is re-raised as
`SerialError`. -/
def read_data (pb : PortBehavior) : PRes DriverErr (List ℕ) :=
  if pb.writeEnqOk = false then PRes.err DriverErr.serial
  else
    match pb.ackRead with
    | none => PRes.err DriverErr.serial
    | some ack =>
      if ack ≠ [ACK] then PRes.err (DriverErr.scales (ScalesErr.badAck ack))
      else if pb.writeDc1Ok = false then PRes.err DriverErr.serial
      else
        match pb.dataRead with
        | none => PRes.err DriverErr.serial
        | some d => PRes.ok d

/-- `CASType6.update()`: one full exchange.  The session attributes are
assigned one at a time — `self.status`, then `self.weight`, then
`self.unit` — and an exception raised part-way leaves the assignments
already made in place (the `except Exception` clause re-raises the same
exception unchanged).  The result pairs the escaped exception, if any,
with the session state after the call. -/
def update (s : ScalesState) (pb : PortBehavior) :
    Option DriverErr × ScalesState :=
  match read_data pb with
  | PRes.err e => (some e, s)
  | PRes.ok response =>
    match check_response response with
    | some e => (some e, s)
    | none =>
      match parse_status response with
      | PRes.err e => (some e, s)
      | PRes.ok st =>
        let s1 := { s with status := st }
        match parse_value response with
        | PRes.err e => (some e, s1)
        | PRes.ok w =>
          let s2 := { s1 with weight := w }
          match parse_unit response with
          | PRes.err e => (some e, s2)
          | PRes.ok u => (none, { s2 with unit := u })

/-- `Generic.scales_reinit()`: close and reopen the port.  The body
catches `SerialException` and only logs it, so the call never raises,
whether or not the reopen succeeded. -/
def scales_reinit (_reinitSucceeds : Bool) : Option DriverErr :=
  none

/-! ### The polling loop of `main.py` -/

/-- `RETRY_TIME = 0.3` seconds (the float literal stands for the decimal
it is written as; nothing depends on its binary value). -/
def RETRY_TIME : Dec := ⟨3, 10⟩

/-- `RECOVERY_TIME = 5` seconds. -/
def RECOVERY_TIME : Dec := ⟨5, 1⟩

/-- The `STATUS` label dict of `main.py`. -/
def STATUS_label (st : ℕ) : Option String :=
  if st = STATUS_OVERLOAD then some "Overload"
  else if st = STATUS_STABLE then some "Stable"
  else if st = STATUS_UNSTABLE then some "Unstable"
  else none

/-- What one iteration of the steady-state `while True` loop of `main()`
does: what it prints (if anything), how long it sleeps before the next
iteration, whether it called `scales_reinit`, which exception (if any)
escapes the loop uncaught, and the session state afterwards. -/
structure IterResult where
  output : Option (Dec × Option String)
  sleep : Dec
  reinitCalled : Bool
  uncaught : Option (Sum DriverErr GetWeightErr)
  state : ScalesState
deriving DecidableEq, Repr

/-- One iteration of the polling loop: `update()`, then on success
`get_weight(unit=GR, decimal_places=1)` and the status label are printed
and the loop sleeps `RETRY_TIME`; `except ScalesException: pass` falls
straight through to the next iteration with no sleep; `except
SerialError` sleeps `RECOVERY_TIME` and calls `scales_reinit()` (whose
outcome it ignores); any other exception is uncaught. -/
def loopIter (s : ScalesState) (pb : PortBehavior) : IterResult :=
  match update s pb with
  | (none, s1) =>
    match get_weight s1 GR 1 with
    | (PRes.ok data, s2) =>
      ⟨some (data, STATUS_label s2.status), RETRY_TIME, false, none, s2⟩
    | (PRes.err e, s2) => ⟨none, ⟨0, 1⟩, false, some (Sum.inr e), s2⟩
  | (some e, s1) =>
    match e with
    | DriverErr.scales _ => ⟨none, ⟨0, 1⟩, false, none, s1⟩
    | DriverErr.serial =>
      match scales_reinit pb.reinitOk with
      | _ => ⟨none, RECOVERY_TIME, true, none, s1⟩
    | e2 => ⟨none, ⟨0, 1⟩, false, some (Sum.inl e2), s1⟩

/-! ### The rounding rule the specification describes (for claim C4) -/

/-- Modelled from the spec words of claim C4, NOT from the source: the
claim says get_weight rounds half to the neighbour with an even last
digit (away from zero when that digit is exactly 5) and otherwise rounds
half-up.  Round-half-up is taken on the magnitude (ties away from zero);
only the non-tie branch is used to separate this rule from the code. -/
def specClaimRound (x : Dec) (dp : ℕ) : Dec :=
  let n : ℤ := x.num * 10 ^ dp
  let a : ℕ := n.natAbs
  let da : ℕ := x.den.toNat
  let q : ℕ := a / da
  let r : ℕ := a % da
  let sgn : ℤ := if 0 ≤ n then 1 else -1
  let mag : ℕ :=
    if 2 * r = da then
      if q % 10 = 5 then q + 1
      else if q % 2 = 0 then q else q + 1
    else if 2 * r < da then q
    else q + 1
  ⟨sgn * mag, 10 ^ dp⟩

/-! ### Concrete frames used by witnesses and counterexamples -/

/-- A structurally valid frame: status byte 0x53 (stable), weight text
`+000001`, but unit bytes 0x78 0x78 that are not in the `UNIT` table; the
checksum byte 0x79 is the XOR fold of bytes `[2, 12)`. -/
def frBadUnit : List ℕ :=
  [0x01, 0x02, 0x53, 0x2B, 0x30, 0x30, 0x30, 0x30, 0x30, 0x31,
   0x78, 0x78, 0x79, 0x03, 0x04]

/-- The 15-byte response of the C6 scenario exactly as the spec lists it,
with the checksum placeholder as a parameter: the placeholder sits at
position 11 (so bytes `[10, 12)` are 0x67 and the placeholder) and the
byte at the checksum position 12 is 0x00. -/
def frameC6lit (b : ℕ) : List ℕ :=
  [0x01, 0x02, 0x53, 0x2B, 0x30, 0x30, 0x30, 0x30, 0x30, 0x20,
   0x67, b, 0x00, 0x03, 0x04]

/-- The frame the C6 scenario means: stable, weight text `+000000`, unit
bytes 0x20 0x67 (grams), and the correct checksum 0x3F at position 12. -/
def frameC6good : List ℕ :=
  [0x01, 0x02, 0x53, 0x2B, 0x30, 0x30, 0x30, 0x30, 0x30, 0x30,
   0x20, 0x67, 0x3F, 0x03, 0x04]

/-- A structurally valid frame whose weight field starts with the
malformed sign byte 0x2A (an asterisk); its checksum 0x3E is correct and
its status and unit bytes are recognized. -/
def frStarSign : List ℕ :=
  [0x01, 0x02, 0x53, 0x2A, 0x30, 0x30, 0x30, 0x30, 0x30, 0x30,
   0x20, 0x67, 0x3E, 0x03, 0x04]

/-! ### Helper lemmas: XOR folds and list surgery -/

lemma foldl_xor_shift (l : List ℕ) : ∀ a : ℕ,
    l.foldl (fun acc item => acc ^^^ item) a =
      a ^^^ l.foldl (fun acc item => acc ^^^ item) 0 := by
  induction l with
  | nil => intro a; simp
  | cons h t ih =>
    intro a
    simp only [List.foldl_cons]
    rw [ih (a ^^^ h), ih (0 ^^^ h), Nat.zero_xor, Nat.xor_assoc]

lemma bcc_cons (h : ℕ) (t : List ℕ) : bcc (h :: t) = h ^^^ bcc t := by
  unfold bcc
  simp only [List.foldl_cons]
  rw [foldl_xor_shift, Nat.zero_xor]

lemma nat_xor_left_comm (a b c : ℕ) : a ^^^ (b ^^^ c) = b ^^^ (a ^^^ c) := by
  rw [← Nat.xor_assoc, Nat.xor_comm a b, Nat.xor_assoc]

lemma bcc_set (l : List ℕ) : ∀ i b : ℕ, i < l.length →
    bcc (l.set i b) = bcc l ^^^ l.getD i 0 ^^^ b := by
  induction l with
  | nil => intro i b h; simp at h
  | cons hd t ih =>
    intro i b h
    cases i with
    | zero =>
      rw [List.set_cons_zero, bcc_cons, bcc_cons, List.getD_cons_zero]
      simp [Nat.xor_assoc, Nat.xor_comm, nat_xor_left_comm,
        Nat.xor_cancel_left, Nat.xor_self, Nat.xor_zero, Nat.zero_xor]
    | succ i =>
      rw [List.set_cons_succ, bcc_cons, bcc_cons, List.getD_cons_succ,
        ih i b (by simpa using h)]
      simp [Nat.xor_assoc]

lemma slice_length (l : List ℕ) (a c : ℕ) :
    (slice l a c).length = min (c - a) (l.length - a) := by
  simp [slice, List.length_take, List.length_drop]

lemma slice_set_inside (l : List ℕ) (p b a c : ℕ) (h1 : a ≤ p) (h2 : p < c) :
    slice (l.set p b) a c = (slice l a c).set (p - a) b := by
  apply List.ext_getElem?
  intro j
  simp only [slice, List.getElem?_take, List.getElem?_drop, List.getElem?_set,
    List.length_take, List.length_drop, List.length_set, lt_min_iff]
  by_cases hpj : p - a = j
  · have hpaj : p = a + j := by omega
    simp [hpj, hpaj, show j < c - a by omega]
    by_cases hpl : a + j < l.length
    · simp [hpl, show j < l.length - a by omega]
    · simp [hpl, show ¬ (j < l.length - a) by omega]
  · have hpaj : p ≠ a + j := by omega
    simp [hpj, hpaj]

lemma slice_set_outside (l : List ℕ) (p b a c : ℕ) (h : c ≤ p ∨ p < a) :
    slice (l.set p b) a c = slice l a c := by
  apply List.ext_getElem?
  intro j
  simp only [slice, List.getElem?_take, List.getElem?_drop, List.getElem?_set]
  by_cases hj : j < c - a
  · have hpaj : p ≠ a + j := by omega
    simp [hj, hpaj]
  · simp [hj]

lemma getD_set_ne (l : List ℕ) (p b j : ℕ) (h : p ≠ j) :
    (l.set p b).getD j 0 = l.getD j 0 := by
  rw [List.getD_eq_getElem?_getD, List.getD_eq_getElem?_getD,
    List.getElem?_set]
  simp [h]

lemma slice_getD (l : List ℕ) (a c j : ℕ) (h1 : j < c - a) :
    (slice l a c).getD j 0 = l.getD (a + j) 0 := by
  rw [List.getD_eq_getElem?_getD, List.getD_eq_getElem?_getD, slice]
  simp [List.getElem?_take, List.getElem?_drop, h1]

/-! ### Claim theorems -/

/-- C2: for every 15-byte frame `check_response` accepts and every
single-byte corruption at a position in `[2, 12)` (a different byte
value, all other bytes including the checksum byte unchanged),
`check_response` rejects the corrupted frame with the checksum error —
and the corruption can never coincidentally preserve the XOR fold, so
the exception the claim allows for is vacuous. -/
theorem checksum_rejects_single_byte_corruption
    (f : List ℕ) (p b : ℕ)
    (hacc : check_response f = none)
    (hp2 : 2 ≤ p) (hp12 : p < 12) (_hb : b < 256) (hne : b ≠ f.getD p 0) :
    check_response (f.set p b) =
      some (DriverErr.scales (ScalesErr.badBcc
        (bcc (slice f 2 12) ^^^ f.getD p 0 ^^^ b) (f.getD 12 0))) ∧
    bcc (slice (f.set p b) 2 12) ≠ bcc (slice f 2 12) := by
  have hlen : f.length = DATA_LEN := by
    by_contra h
    unfold check_response at hacc
    rw [if_pos h] at hacc
    exact Option.noConfusion hacc
  have hlen15 : f.length = 15 := hlen
  have hwrap : slice f 0 2 ++ slice f 13 15 = WRAP := by
    by_contra h
    unfold check_response at hacc
    rw [if_neg (by simp [hlen]), if_pos h] at hacc
    exact Option.noConfusion hacc
  have hbcc : bcc (slice f 2 12) = f.getD 12 0 := by
    by_contra h
    unfold check_response at hacc
    rw [if_neg (by simp [hlen]), if_neg (by simp [hwrap]), if_pos h] at hacc
    exact Option.noConfusion hacc
  have hdata : slice (f.set p b) 2 12 = (slice f 2 12).set (p - 2) b :=
    slice_set_inside f p b 2 12 hp2 hp12
  have hlens : (slice f 2 12).length = 10 := by
    rw [slice_length, hlen15]
    omega
  have hgd : (slice f 2 12).getD (p - 2) 0 = f.getD p 0 := by
    have h2 := slice_getD f 2 12 (p - 2) (by omega)
    rwa [show 2 + (p - 2) = p by omega] at h2
  have hbset : bcc (slice (f.set p b) 2 12) =
      bcc (slice f 2 12) ^^^ f.getD p 0 ^^^ b := by
    rw [hdata, bcc_set _ _ _ (by rw [hlens]; omega), hgd]
  have hneq : bcc (slice (f.set p b) 2 12) ≠ bcc (slice f 2 12) := by
    rw [hbset]
    intro hcontra
    have h3 : bcc (slice f 2 12) ^^^ (f.getD p 0 ^^^ b) =
        bcc (slice f 2 12) ^^^ 0 := by
      rw [Nat.xor_zero, ← Nat.xor_assoc]
      exact hcontra
    exact hne (Nat.xor_eq_zero.mp (Nat.xor_right_inj.mp h3)).symm
  refine ⟨?_, hneq⟩
  have hw1 : slice (f.set p b) 0 2 = slice f 0 2 :=
    slice_set_outside f p b 0 2 (Or.inl hp2)
  have hw2 : slice (f.set p b) 13 15 = slice f 13 15 :=
    slice_set_outside f p b 13 15 (Or.inr (by omega))
  have hg12 : (f.set p b).getD 12 0 = f.getD 12 0 :=
    getD_set_ne f p b 12 (by omega)
  unfold check_response
  rw [if_neg (by simp [List.length_set, hlen]),
    if_neg (by rw [hw1, hw2]; simp [hwrap]),
    if_pos (by rw [hg12]; rw [← hbcc]; exact hneq)]
  rw [hbset, hg12]

/-- C2 witness: corrupting byte 4 of the accepted frame `frameC6good`
from 0x30 to 0x31 is rejected with the checksum error. -/
theorem checksum_rejects_single_byte_corruption_witness :
    check_response (frameC6good.set 4 0x31) =
      some (DriverErr.scales (ScalesErr.badBcc
        (bcc (slice frameC6good 2 12) ^^^ frameC6good.getD 4 0 ^^^ 0x31)
        (frameC6good.getD 12 0))) ∧
    bcc (slice (frameC6good.set 4 0x31) 2 12) ≠
      bcc (slice frameC6good 2 12) :=
  checksum_rejects_single_byte_corruption frameC6good 4 0x31
    (by decide) (by decide) (by decide) (by decide) (by decide)

/-- C3: structural validation is applied in the fixed order length,
envelope, checksum, fail-fast, with the three distinct protocol
violations, and a frame passing all three checks raises nothing. -/
theorem check_response_fail_fast (response : List ℕ) :
    (response.length ≠ DATA_LEN →
      check_response response =
        some (DriverErr.scales (ScalesErr.badLen response.length))) ∧
    (response.length = DATA_LEN →
      slice response 0 2 ++ slice response 13 15 ≠ WRAP →
      check_response response =
        some (DriverErr.scales (ScalesErr.badWrap
          (slice response 0 2 ++ slice response 13 15)))) ∧
    (response.length = DATA_LEN →
      slice response 0 2 ++ slice response 13 15 = WRAP →
      bcc (slice response 2 12) ≠ response.getD 12 0 →
      check_response response =
        some (DriverErr.scales (ScalesErr.badBcc
          (bcc (slice response 2 12)) (response.getD 12 0)))) ∧
    (response.length = DATA_LEN →
      slice response 0 2 ++ slice response 13 15 = WRAP →
      bcc (slice response 2 12) = response.getD 12 0 →
      check_response response = none) := by
  refine ⟨?_, ?_, ?_, ?_⟩
  · intro h1
    unfold check_response
    rw [if_pos h1]
  · intro h1 h2
    unfold check_response
    rw [if_neg (by simp [h1]), if_pos h2]
  · intro h1 h2 h3
    unfold check_response
    rw [if_neg (by simp [h1]), if_neg (by simp [h2]), if_pos h3]
  · intro h1 h2 h3
    unfold check_response
    rw [if_neg (by simp [h1]), if_neg (by simp [h2]), if_neg (by simp [h3])]

/-- C3 witness: a 14-byte frame is rejected with the length error. -/
theorem check_response_fail_fast_witness :
    check_response (List.replicate 14 0) =
      some (DriverErr.scales (ScalesErr.badLen (List.replicate 14 0).length)) :=
  (check_response_fail_fast (List.replicate 14 0)).1 (by decide)

/-- C1 counterexample: `update` on the frame `frBadUnit` raises the
unrecognized-unit protocol violation, yet the session state after the
call is not the state before it — status and weight were committed. -/
theorem update_unit_error_changes_state_cex :
    update initState (pbOf frBadUnit) =
      (some (DriverErr.scales (ScalesErr.badUnit [0x78, 0x78])),
        ⟨⟨1, 1⟩, STATUS_STABLE, ScaleUnit.gr⟩) ∧
    (⟨⟨1, 1⟩, STATUS_STABLE, ScaleUnit.gr⟩ : ScalesState) ≠ initState := by
  refine ⟨by decide, by decide⟩

/-- C1 as amended: the commit in `update()` is sequential, not atomic.
When structural validation, status decoding and weight parsing succeed
and unit decoding then fails, the raised error leaves the frame's status
and weight committed and only the unit at its previous value; the error
is a `ScalesException` (protocol violation). -/
theorem update_unit_error_commits_status_and_weight
    (s : ScalesState) (resp : List ℕ) (st : ℕ) (w : Dec) (e : DriverErr)
    (hchk : check_response resp = none)
    (hst : parse_status resp = PRes.ok st)
    (hw : parse_value resp = PRes.ok w)
    (hu : parse_unit resp = PRes.err e) :
    update s (pbOf resp) = (some e, { s with status := st, weight := w }) ∧
    isProtocolViolation e = true := by
  constructor
  · simp [update, read_data, pbOf, hchk, hst, hw, hu]
  · simp only [parse_unit] at hu
    split at hu
    · exact PRes.noConfusion hu
    · cases hu
      rfl

/-- C1 witness: the amended theorem applied to `frBadUnit`. -/
theorem update_unit_error_commits_status_and_weight_witness :
    update initState (pbOf frBadUnit) =
      (some (DriverErr.scales (ScalesErr.badUnit [0x78, 0x78])),
        { initState with status := STATUS_STABLE, weight := ⟨1, 1⟩ }) ∧
    isProtocolViolation (DriverErr.scales (ScalesErr.badUnit [0x78, 0x78]))
      = true :=
  update_unit_error_commits_status_and_weight initState frBadUnit
    STATUS_STABLE ⟨1, 1⟩ (DriverErr.scales (ScalesErr.badUnit [0x78, 0x78]))
    (by decide) (by decide) (by decide) (by decide)

/-- C5: the exchange reads one acknowledgment byte after ENQ; any answer
other than the single byte ACK — the empty read of a timeout included —
raises the `ScalesException` protocol violation (not a link error) and
leaves the committed reading unchanged, while a `SerialException` from
the port at any point of the exchange surfaces as the `SerialError` link
error instead. -/
theorem ack_mismatch_is_protocol_violation
    (s : ScalesState) (pb : PortBehavior) (ack : List ℕ) :
    (pb.writeEnqOk = true → pb.ackRead = some ack → ack ≠ [ACK] →
      update s pb = (some (DriverErr.scales (ScalesErr.badAck ack)), s) ∧
      isProtocolViolation (DriverErr.scales (ScalesErr.badAck ack)) = true) ∧
    (pb.writeEnqOk = false → update s pb = (some DriverErr.serial, s)) ∧
    (pb.ackRead = none → update s pb = (some DriverErr.serial, s)) ∧
    (pb.ackRead = some [ACK] → pb.writeDc1Ok = false →
      update s pb = (some DriverErr.serial, s)) ∧
    (pb.ackRead = some [ACK] → pb.writeDc1Ok = true → pb.dataRead = none →
      update s pb = (some DriverErr.serial, s)) ∧
    isProtocolViolation DriverErr.serial = false := by
  refine ⟨?_, ?_, ?_, ?_, ?_, rfl⟩
  · intro h1 h2 h3
    exact ⟨by simp [update, read_data, h1, h2, h3], rfl⟩
  · intro h1
    simp [update, read_data, h1]
  · intro h1
    by_cases h2 : pb.writeEnqOk = true
    · simp [update, read_data, h1, h2]
    · simp [update, read_data, Bool.not_eq_true pb.writeEnqOk ▸ h2]
  · intro h1 h2
    by_cases h3 : pb.writeEnqOk = true
    · simp [update, read_data, h1, h2, h3, ACK]
    · simp [update, read_data, Bool.not_eq_true pb.writeEnqOk ▸ h3]
  · intro h1 h2 h3
    by_cases h4 : pb.writeEnqOk = true
    · simp [update, read_data, h1, h2, h3, h4, ACK]
    · simp [update, read_data, Bool.not_eq_true pb.writeEnqOk ▸ h4]

/-- C5 witness: the scenario of the spec — the acknowledgment byte comes
back as 0x00 — is a protocol violation and the reading is unchanged. -/
theorem ack_mismatch_is_protocol_violation_witness :
    update initState ⟨true, some [0x00], true, none, true⟩ =
      (some (DriverErr.scales (ScalesErr.badAck [0x00])), initState) ∧
    isProtocolViolation (DriverErr.scales (ScalesErr.badAck [0x00])) = true :=
  (ack_mismatch_is_protocol_violation initState
    ⟨true, some [0x00], true, none, true⟩ [0x00]).1
    (by decide) (by decide) (by decide)

/-- C6 counterexample: in the 15-byte response exactly as the spec lists
it, the only checksum placeholder value that makes `check_response`
accept the frame is 0x0F, and with that value `update` raises the
unrecognized-unit protocol violation — it does not succeed, and it
commits status Stable and weight 0 while leaving the unit alone. -/
theorem spec_literal_frame_cannot_succeed_cex :
    ((List.range 256).filter
      (fun b => check_response (frameC6lit b) == none)) = [0x0F] ∧
    update initState (pbOf (frameC6lit 0x0F)) =
      (some (DriverErr.scales (ScalesErr.badUnit [0x67, 0x0F])),
        ⟨⟨0, 1⟩, STATUS_STABLE, ScaleUnit.gr⟩) := by
  refine ⟨by decide, by decide⟩

/-- C6 as amended: for the corrected frame 01 02 53 2B 30 30 30 30 30 30
20 67 3F 03 04 — weight field `+000000`, unit bytes 0x20 0x67, checksum
0x3F equal to the XOR fold of bytes `[2, 12)` — `update` succeeds and
commits status Stable, weight 0, unit grams. -/
theorem corrected_c6_frame_decodes :
    update initState (pbOf frameC6good) =
      (none, ⟨⟨0, 1⟩, STATUS_STABLE, ScaleUnit.gr⟩) ∧
    bcc (slice frameC6good 2 12) = 0x3F := by
  refine ⟨by decide, by decide⟩

/-- C7 counterexample: the frame `frStarSign` passes structural
validation and status decoding, its weight field `*00000` is not a
well-formed decimal literal, and `update` raises
`decimal.InvalidOperation` — an exception that is not a
`ScalesException`, so it is outside the protocol-violation taxonomy and
escapes the polling loop handlers. -/
theorem malformed_sign_escapes_taxonomy_cex :
    update initState (pbOf frStarSign) =
      (some DriverErr.invalidOperation,
        ⟨⟨0, 1⟩, STATUS_STABLE, ScaleUnit.gr⟩) ∧
    isProtocolViolation DriverErr.invalidOperation = false ∧
    (loopIter initState (pbOf frStarSign)).uncaught =
      some (Sum.inl DriverErr.invalidOperation) := by
  refine ⟨by decide, by decide, by decide⟩

/-- C7 as amended: a frame that passes structural validation and status
decoding but whose weight field fails decimal parsing makes `update`
raise `decimal.InvalidOperation`, which is not a protocol violation: it
is outside the link-error / protocol-violation taxonomy, is not caught
by the polling loop, and the status decoded from the same frame has
already been committed when it escapes. -/
theorem malformed_weight_raises_invalid_operation
    (s : ScalesState) (resp : List ℕ) (st : ℕ)
    (hchk : check_response resp = none)
    (hst : parse_status resp = PRes.ok st)
    (hw : parse_value resp = PRes.err DriverErr.invalidOperation) :
    update s (pbOf resp) =
      (some DriverErr.invalidOperation, { s with status := st }) ∧
    isProtocolViolation DriverErr.invalidOperation = false ∧
    (loopIter s (pbOf resp)).uncaught =
      some (Sum.inl DriverErr.invalidOperation) := by
  have hup : update s (pbOf resp) =
      (some DriverErr.invalidOperation, { s with status := st }) := by
    simp [update, read_data, pbOf, hchk, hst, hw]
  refine ⟨hup, rfl, ?_⟩
  simp [loopIter, hup]

/-- C7 witness: the amended theorem applied to `frStarSign`. -/
theorem malformed_weight_raises_invalid_operation_witness :
    update initState (pbOf frStarSign) =
      (some DriverErr.invalidOperation,
        { initState with status := STATUS_STABLE }) ∧
    isProtocolViolation DriverErr.invalidOperation = false ∧
    (loopIter initState (pbOf frStarSign)).uncaught =
      some (Sum.inl DriverErr.invalidOperation) :=
  malformed_weight_raises_invalid_operation initState frStarSign
    STATUS_STABLE (by decide) (by decide) (by decide)

/-- C8 counterexample: on a protocol violation (the unrecognized-unit
frame `frBadUnit`) the loop produces no output and does not reinitialize,
but it proceeds to the next poll with no sleep at all — the short
inter-poll delay the claim asserts does not happen — and the session
state was mutated by the partial commit inside `update`. -/
theorem protocol_violation_skips_delay_cex :
    loopIter initState (pbOf frBadUnit) =
      ⟨none, ⟨0, 1⟩, false, none, ⟨⟨1, 1⟩, STATUS_STABLE, ScaleUnit.gr⟩⟩ ∧
    (⟨0, 1⟩ : Dec) ≠ RETRY_TIME ∧
    (⟨⟨1, 1⟩, STATUS_STABLE, ScaleUnit.gr⟩ : ScalesState) ≠ initState := by
  refine ⟨by decide, by decide, by decide⟩

/-- C8 as amended: in the steady state, a protocol violation from
`update()` keeps the connection (no reinitialize), produces no output
and falls straight through to the next poll with no delay, with the
session state as `update` left it (possibly partially committed); a link
error sleeps the recovery delay, calls `scales_reinit` — which never
raises, so polling resumes whether or not the reopen succeeded — and the
loop result does not depend on the reinitialization outcome. -/
theorem loop_policy (s : ScalesState) (pb : PortBehavior) :
    (∀ e, (update s pb).1 = some e → isProtocolViolation e = true →
      loopIter s pb = ⟨none, ⟨0, 1⟩, false, none, (update s pb).2⟩) ∧
    ((update s pb).1 = some DriverErr.serial →
      loopIter s pb = ⟨none, RECOVERY_TIME, true, none, (update s pb).2⟩) ∧
    (loopIter s { pb with reinitOk := true } =
      loopIter s { pb with reinitOk := false }) ∧
    (∀ ok : Bool, scales_reinit ok = none) := by
  refine ⟨?_, ?_, ?_, fun _ => rfl⟩
  · intro e h1 h2
    rcases hres : update s pb with ⟨o, s2⟩
    rw [hres] at h1
    have h1x : o = some e := h1
    subst h1x
    cases e with
    | scales e0 => simp [loopIter, hres]
    | serial => simp [isProtocolViolation] at h2
    | invalidOperation => simp [isProtocolViolation] at h2
    | unicodeDecode => simp [isProtocolViolation] at h2
  · intro h1
    rcases hres : update s pb with ⟨o, s2⟩
    rw [hres] at h1
    have h1x : o = some DriverErr.serial := h1
    subst h1x
    simp [loopIter, hres, scales_reinit]
  · rfl

/-- C8 witness: a port whose first write already fails makes `update`
raise the link error, and the loop sleeps the recovery delay and calls
`scales_reinit`. -/
theorem loop_policy_witness :
    loopIter initState ⟨false, none, false, none, false⟩ =
      ⟨none, RECOVERY_TIME, true, none,
        (update initState ⟨false, none, false, none, false⟩).2⟩ :=
  (loop_policy initState ⟨false, none, false, none, false⟩).2.1 (by decide)

/-- C9: `get_weight` raises the unknown-unit `ValueError` exactly when
the requested unit is none of the three factor-table keys, and every
call — the failing ones included — returns the session state unchanged
(the method performs no assignment). -/
theorem get_weight_unknown_unit (s : ScalesState) (u : String) (dp : ℕ) :
    ((get_weight s u dp).1 = PRes.err GetWeightErr.unknownUnit ↔
      (u ≠ GR ∧ u ≠ KG ∧ u ≠ LB)) ∧
    (get_weight s u dp).2 = s := by
  by_cases h1 : u = GR
  · exact ⟨by simp [get_weight, FACTOR_get, GR, KG, LB, h1],
      by simp [get_weight, FACTOR_get, GR, KG, LB, h1]⟩
  · by_cases h2 : u = KG
    · exact ⟨by simp [get_weight, FACTOR_get, GR, KG, LB, h1, h2],
        by simp [get_weight, FACTOR_get, GR, KG, LB, h1, h2]⟩
    · by_cases h3 : u = LB
      · exact ⟨by simp [get_weight, FACTOR_get, GR, KG, LB, h1, h2, h3],
          by simp [get_weight, FACTOR_get, GR, KG, LB, h1, h2, h3]⟩
      · exact ⟨by simp [get_weight, FACTOR_get, h1, h2, h3],
          by simp [get_weight, FACTOR_get, h1, h2, h3]⟩

/-- C4 counterexample: for the committed weight 0.19 grams, requested in
grams at one decimal place, the discarded portion 0.09 is below one
half, so the rule the claim states — standard round-half-up off ties —
would give 0.2; the code gives 0.1 (ROUND_05UP truncates toward zero
because the last kept digit 1 is neither 0 nor 5). -/
theorem rounding_is_not_half_up_cex :
    (get_weight ⟨⟨19, 100⟩, STATUS_STABLE, ScaleUnit.gr⟩ GR 1).1 =
      PRes.ok ⟨1, 10⟩ ∧
    specClaimRound ⟨19, 100⟩ 1 = ⟨2, 10⟩ ∧
    ¬ Dec.valEq ⟨1, 10⟩ ⟨2, 10⟩ := by
  refine ⟨by decide, by decide, by decide⟩

/-- C4 as amended: `get_weight` rounds with the decimal `ROUND_05UP`
rule: truncate toward zero to the requested places, except that an
inexact truncation whose last kept digit is 0 or 5 rounds away from
zero.  Halves get no special treatment: 100.05 → 100.1 (kept digit 0),
0.25 → 0.2, 0.15 → 0.1, 0.35 → 0.3, -1.05 → -1.1, 0.45 → 0.4, and the
non-tie 0.19 → 0.1 — neither half-up nor half-even behaviour. -/
theorem get_weight_rounds_05up :
    (∀ (s : ScalesState) (dp : ℕ),
      (get_weight s GR dp).1 =
        PRes.ok (quantize05up
          ((s.weight.mul (FACTOR_of s.unit)).div ⟨1, 1⟩) dp)) ∧
    quantize05up ⟨10005, 100⟩ 1 = ⟨1001, 10⟩ ∧
    quantize05up ⟨25, 100⟩ 1 = ⟨2, 10⟩ ∧
    quantize05up ⟨15, 100⟩ 1 = ⟨1, 10⟩ ∧
    quantize05up ⟨35, 100⟩ 1 = ⟨3, 10⟩ ∧
    quantize05up ⟨45, 100⟩ 1 = ⟨4, 10⟩ ∧
    quantize05up ⟨-105, 100⟩ 1 = ⟨-11, 10⟩ ∧
    quantize05up ⟨19, 100⟩ 1 = ⟨1, 10⟩ := by
  refine ⟨fun s dp => rfl, by decide, by decide, by decide, by decide,
    by decide, by decide, by decide⟩

/-- C10 counterexample: the pounds factor `Decimal(453.595)` is the
exact value of the IEEE-754 double nearest 453.595, which is
453.595000000000027284841053187847137451171875 — not the digit string
453.59500000000002501110429875552654266357421875 the claim asserts. -/
theorem lb_factor_digits_cex :
    ¬ Dec.valEq lbFactor
      ⟨45359500000000002501110429875552654266357421875, 10 ^ 44⟩ ∧
    Dec.valEq lbFactor
      ⟨453595000000000027284841053187847137451171875, 10 ^ 42⟩ := by
  refine ⟨by decide, by decide⟩

/-- C10 as amended: the pounds factor is the Decimal constructed from
the binary floating-point literal 453.595 — exactly
453.595000000000027284841053187847137451171875, that is,
1994931907204219 / 2 ^ 42 — and not exactly the decimal 453.595; the
grams and kilograms factors are exactly 1 and 1000, and every
`get_weight` conversion into or out of pounds divides or multiplies by
this exact value. -/
theorem lb_factor_exact :
    Dec.valEq lbFactor
      ⟨453595000000000027284841053187847137451171875, 10 ^ 42⟩ ∧
    ¬ Dec.valEq lbFactor ⟨453595, 1000⟩ ∧
    FACTOR_get GR = some ⟨1, 1⟩ ∧
    FACTOR_get KG = some ⟨1000, 1⟩ ∧
    FACTOR_get LB = some lbFactor ∧
    (∀ (s : ScalesState) (dp : ℕ),
      (get_weight s LB dp).1 =
        PRes.ok (quantize05up
          ((s.weight.mul (FACTOR_of s.unit)).div lbFactor) dp)) ∧
    (∀ (w : Dec) (st : ℕ) (dp : ℕ),
      (get_weight ⟨w, st, ScaleUnit.lb⟩ GR dp).1 =
        PRes.ok (quantize05up ((w.mul lbFactor).div ⟨1, 1⟩) dp)) := by
  refine ⟨by decide, by decide, by decide, by decide, by decide,
    fun s dp => rfl, fun w st dp => rfl⟩

end ScalesDriver
